import Mathlib

/-
  Verification of the pcheck stress-testing tool against its specification.

  The development shallowly embeds the health-evaluation functions, the
  four torture-test lane state machines and the torture orchestrator of the
  repository. Machine floats that only ever enter ordered comparisons are
  modelled as rationals; formatted status strings keep their static text and
  elide interpolated numbers. Sensor readings and other environment inputs
  (temperature probes, available memory, file system) are passed explicitly.
-/

namespace Pcheck

/-- Health verdict, mirroring enum HealthStatus of src/src/stress/mod.rs:
Healthy, IssuesDetected with a list of issue strings, Failed with a reason. -/
inductive HealthStatus
  | Healthy
  | IssuesDetected (issues : List String)
  | Failed (reason : String)
deriving DecidableEq

/-- Coarse classification of a HealthStatus, used to state claims that only
depend on which constructor was produced. -/
inductive HealthTag
  | healthy
  | issues
  | failed
deriving DecidableEq

/-- Tag of a health status value. -/
def HealthStatus.tag : HealthStatus → HealthTag
  | HealthStatus.Healthy => HealthTag.healthy
  | HealthStatus.IssuesDetected _ => HealthTag.issues
  | HealthStatus.Failed _ => HealthTag.failed

/-- Check of an optional temperature against a threshold, as the code does
with if-let Some plus a strict comparison: a missing reading never exceeds. -/
def tempOver (t : Option ℚ) (threshold : ℚ) : Bool :=
  match t with
  | some x => threshold < x
  | none => false

/-- Embedding of evaluate_cpu_health (src/src/stress/cpu/mod.rs, lines
368 to 412). Order of checks as in the source: crashed test, temperature
over 95 early return, collect issue strings for temperature over 85 and
frequency drop over 10, variance over 200 early return, then issues or
healthy. Interpolated numbers in the messages are elided. -/
def evaluate_cpu_health (completed : Bool) (variance : ℚ)
    (temperature : Option ℚ) (freq_drop_pct : ℚ) : HealthStatus :=
  if completed = false then
    HealthStatus.Failed "CPU crashed during test - FAULTY HARDWARE"
  else if tempOver temperature 95 then
    HealthStatus.Failed "CPU overheating - cooling system failure"
  else
    let issues :=
      (if tempOver temperature 85 then ["CPU running hot - check cooling"] else []) ++
      (if 10 < freq_drop_pct then ["CPU throttled - possible thermal or power limit"] else [])
    if 200 < variance then
      HealthStatus.Failed "Extreme instability detected - possible CPU fault"
    else if issues.isEmpty then
      HealthStatus.Healthy
    else
      HealthStatus.IssuesDetected issues

/-- Embedding of evaluate_ram_health (src/src/stress/ram.rs, lines 132
to 164): any error fails, then allocation check, then the two 0.3 GB per
second speed floors, otherwise healthy. -/
def evaluate_ram_health (test_gb write_speed read_speed : ℚ) (errors : ℕ) : HealthStatus :=
  if 0 < errors then
    HealthStatus.Failed "Memory errors detected - BAD RAM"
  else if test_gb < 1/10 then
    HealthStatus.Failed "Memory allocation failed"
  else if write_speed < 3/10 then
    HealthStatus.Failed "Extremely low write speed - faulty RAM or wrong slot"
  else if read_speed < 3/10 then
    HealthStatus.Failed "Extremely low read speed - faulty RAM or wrong slot"
  else
    HealthStatus.Healthy

/-- Embedding of evaluate_disk_health (src/src/stress/disk/mod.rs, lines
477 to 536): bad sectors fail first, then the media-dependent critical
floors, then soft issues for slow seek and below-average read speed. -/
def evaluate_disk_health (write_speed read_speed seek : ℚ) (bad_sectors : ℕ)
    (is_ssd : Bool) : HealthStatus :=
  if 0 < bad_sectors then
    HealthStatus.Failed "Bad sectors detected - disk failure imminent"
  else
    let min_read : ℚ := if is_ssd then 50 else 10
    let min_write : ℚ := if is_ssd then 30 else 10
    let max_seek : ℚ := if is_ssd then 5 else 20
    if read_speed < min_read then
      HealthStatus.Failed "Extremely slow read speed - dying disk"
    else if write_speed < min_write then
      HealthStatus.Failed "Extremely slow write speed - dying disk"
    else
      let issues :=
        (if 0 < seek ∧ max_seek < seek then
          ["Slow seek time - possible mechanical issue"] else []) ++
        (if is_ssd = true ∧ read_speed < 100 then
          ["SSD read speed below average"]
         else if is_ssd = false ∧ read_speed < 50 then
          ["HDD read speed below average"]
         else [])
      if issues.isEmpty then HealthStatus.Healthy
      else HealthStatus.IssuesDetected issues

/-- Embedding of evaluate_gpu_health (src/src/stress/gpu.rs, lines 293 to
319): with a reading, over 95 fails and over 85 is an issue; with no
reading, Apple silicon is healthy and anything else is an issue. -/
def evaluate_gpu_health (max_temp : Option ℚ) (is_apple_silicon : Bool) : HealthStatus :=
  match max_temp with
  | some temp =>
      if 95 < temp then
        HealthStatus.Failed "GPU overheating - cooling system failure or defective GPU"
      else
        let issues := if 85 < temp then ["GPU running hot - check cooling system"] else []
        if issues.isEmpty then HealthStatus.Healthy
        else HealthStatus.IssuesDetected issues
  | none =>
      if is_apple_silicon then
        HealthStatus.Healthy
      else
        HealthStatus.IssuesDetected
          ["GPU temperature sensor not available - unable to verify thermal status"]

/-- The 64-bit fill pattern 0xAA55AA55AA55AA55 of the standalone RAM test
(src/src/stress/ram.rs, line 65) and of the torture RAM lane. -/
def ram_pattern : ℕ := 0xAA55AA55AA55AA55

/-- Error count of the standalone RAM verification pass (src/src/stress/
ram.rs, lines 92 to 107): the words are scanned chunk by chunk and every
word differing from the pattern increments the counter once, so the count
is the number of mismatched words of the buffer. -/
def ram_verify_errors (buffer : List ℕ) : ℕ :=
  buffer.countP (fun w => w != ram_pattern)

/-- The fill byte 0xA5 of the disk tests (src/src/stress/disk/mod.rs,
line 234 and line 272). -/
def disk_pattern : ℕ := 0xA5

/-- Mismatched bytes of one read-back chunk against the expected constant
buffer (src/src/stress/disk/mod.rs, lines 284 to 291): the chunk is
compared elementwise and each differing byte is counted. -/
def disk_chunk_mismatches (chunk : List ℕ) : ℕ :=
  chunk.countP (fun b => b != disk_pattern)

/-- Total mismatched bytes over all chunks of the disk read test. -/
def disk_byte_mismatches (chunks : List (List ℕ)) : ℕ :=
  (chunks.map disk_chunk_mismatches).sum

/-- Sector error count reported by read_test (src/src/stress/disk/mod.rs,
line 310): the raw byte mismatch count integer-divided by 4096. -/
def read_test_sector_errors (chunks : List (List ℕ)) : ℕ :=
  disk_byte_mismatches chunks / 4096

/-
  Sensor traces. The standalone CPU and GPU runs call their temperature
  probe repeatedly; a run is modelled against the list of successive
  readings the probe returns, in call order.
-/

/-- The per-second progress loop of the standalone CPU run (src/src/stress/
cpu/mod.rs, lines 101 to 136) performs one get_cpu_temp call per elapsed
second, used only for display; this consumes the first duration_secs
readings of the trace and returns the rest. -/
def cpu_display_phase : ℕ → List (Option ℚ) → List (Option ℚ)
  | 0, sensor => sensor
  | _ + 1, [] => []
  | n + 1, _ :: rest => cpu_display_phase n rest

/-- The temperature that the standalone CPU run hands to
evaluate_cpu_health: the single get_cpu_temp call made after the loop
(src/src/stress/cpu/mod.rs, line 165), that is the next reading of the
trace after the display loop; an exhausted trace reads as none. -/
def cpu_post_test_temp (duration_secs : ℕ) (sensor : List (Option ℚ)) : Option ℚ :=
  match cpu_display_phase duration_secs sensor with
  | [] => none
  | r :: _ => r

/-- One update of the running GPU maximum (src/src/stress/gpu.rs, lines
163 to 165 and 268 to 272): the new reading replaces the maximum when
there is none yet or when it is strictly larger. -/
def gpu_update_max (max_temp : Option ℚ) (t : ℚ) : Option ℚ :=
  match max_temp with
  | none => some t
  | some m => if m < t then some t else some m

/-- The temperature_max value the standalone GPU run hands to
evaluate_gpu_health, folding gpu_update_max over the successive readings
(absent readings leave the maximum unchanged). -/
def gpu_temperature_max (samples : List (Option ℚ)) : Option ℚ :=
  samples.foldl (fun acc s => match s with | none => acc | some t => gpu_update_max acc t) none

/-- Specification-side definition, following the words worst single
(maximum) sample observed during the run: the maximum of the present
readings of the trace, or none when no reading was present. Stated
independently of the code fold so the two can be compared. -/
def spec_worst_sample : List (Option ℚ) → Option ℚ
  | [] => none
  | none :: rest => spec_worst_sample rest
  | some t :: rest =>
      match spec_worst_sample rest with
      | none => some t
      | some m => some (max t m)

/-
  Torture-test lane state machines (src/src/stress/torture/tests/).
  Thread handles are abstract tokens; get_result calls that probe fresh
  sensor readings take the reading as an explicit argument.
-/

/-- State of CpuTortureTest (src/src/stress/torture/tests/cpu.rs, lines
12 to 20): stop flag, shared operation counter, the spawned worker thread
handles, start time, target duration, core count and the completed flag. -/
structure CpuTortureTest where
  running : Bool
  operations : ℕ
  thread_handles : List ℕ
  _start_time : ℚ
  _target_duration_secs : ℕ
  _cpu_cores : ℕ
  completed : Bool
deriving DecidableEq

/-- Embedding of CpuTortureTest stop (src/src/stress/torture/tests/cpu.rs,
lines 89 to 102). Returns the new state and the list of thread handles
drained and joined by this call: an already completed test returns early,
joining nothing; otherwise the stop flag is cleared, every handle is
drained and joined, and completed is set. -/
def CpuTortureTest.stop (s : CpuTortureTest) : CpuTortureTest × List ℕ :=
  if s.completed then (s, [])
  else ({ s with running := false, thread_handles := [], completed := true },
        s.thread_handles)

/-- Final per-lane CPU result (src/src/stress/torture/tests/cpu.rs, lines
24 to 30). -/
structure CpuPartialResult where
  operations : ℕ
  temp_c : Option ℚ
  freq_ghz : ℚ
  healthy : Bool
  status : Option String
deriving DecidableEq

/-- Embedding of CpuTortureTest get_result (src/src/stress/torture/tests/
cpu.rs, lines 105 to 133): fresh temperature and frequency probes are
arguments; a reading over 95 or over 85 is unhealthy, a missing reading
is healthy with status OK (no temp data). -/
def CpuTortureTest.get_result (s : CpuTortureTest) (temp : Option ℚ)
    (freq_ghz : ℚ) : CpuPartialResult :=
  let hs : Bool × Option String :=
    match temp with
    | some t =>
        if 95 < t then (false, some "Overheating")
        else if 85 < t then (false, some "Running hot")
        else (true, some "OK")
    | none => (true, some "OK (no temp data)")
  { operations := s.operations, temp_c := temp, freq_ghz := freq_ghz,
    healthy := hs.1, status := hs.2 }

/-- Phases of the torture RAM lane (src/src/stress/torture/tests/ram.rs,
lines 23 to 28). -/
inductive RamPhase
  | Alloc
  | Write
  | Verify
  | Done
deriving DecidableEq

/-- State of RamTortureTest (src/src/stress/torture/tests/ram.rs, lines
11 to 20). The buffer is the list of 64-bit words. -/
structure RamTortureTest where
  buffer : Option (List ℕ)
  chunk_index : ℕ
  total_chunks : ℕ
  errors : ℕ
  _start_time : ℚ
  tested_gb : ℚ
  phase : RamPhase
  stop_requested : Bool
deriving DecidableEq

/-- Embedding of RamTortureTest new (src/src/stress/torture/tests/ram.rs,
lines 50 to 61). -/
def RamTortureTest.new : RamTortureTest :=
  { buffer := none, chunk_index := 0, total_chunks := 0, errors := 0,
    _start_time := 0, tested_gb := 0, phase := RamPhase.Alloc,
    stop_requested := false }

/-- Embedding of allocate_buffer (src/src/stress/torture/tests/ram.rs,
lines 82 to 109); the available memory in GB is an argument. The test
size is half the available memory capped at 4 GB; below 0.1 GB the phase
jumps to Done without allocating, otherwise a zeroed buffer of the
truncated element count is installed and writing starts. -/
def RamTortureTest.allocate_buffer (s : RamTortureTest) (available_gb : ℚ) : RamTortureTest :=
  let test_gb := min (available_gb * (1/2)) 4
  if test_gb < 1/10 then
    { s with phase := RamPhase.Done }
  else
    let element_count : ℕ := (test_gb * 1024 * 1024 * 1024 / 8).floor.toNat
    { s with buffer := some (List.replicate element_count 0),
             tested_gb := test_gb,
             chunk_index := 0,
             total_chunks := (element_count + (1024 * 1024) - 1) / (1024 * 1024),
             phase := RamPhase.Write }

/-- Embedding of write_chunk (src/src/stress/torture/tests/ram.rs, lines
112 to 138): fills the current 1M-word chunk with the pattern, advances,
and switches to Verify after the last chunk. -/
def RamTortureTest.write_chunk (s : RamTortureTest) : RamTortureTest :=
  match s.buffer with
  | none => s
  | some buffer =>
      let chunk_size := 1024 * 1024
      if s.chunk_index < s.total_chunks then
        let start := s.chunk_index * chunk_size
        let stop := min (start + chunk_size) buffer.length
        let buffer2 := buffer.take start ++
          List.replicate (stop - start) ram_pattern ++ buffer.drop stop
        let idx := s.chunk_index + 1
        if s.total_chunks ≤ idx then
          { s with buffer := some buffer2, chunk_index := 0, phase := RamPhase.Verify }
        else
          { s with buffer := some buffer2, chunk_index := idx }
      else s

/-- Embedding of verify_chunk (src/src/stress/torture/tests/ram.rs, lines
141 to 170): counts the words of the current chunk that differ from the
pattern into the error counter, advances, and switches back to Write
after the last chunk. -/
def RamTortureTest.verify_chunk (s : RamTortureTest) : RamTortureTest :=
  match s.buffer with
  | none => s
  | some buffer =>
      let chunk_size := 1024 * 1024
      if s.chunk_index < s.total_chunks then
        let start := s.chunk_index * chunk_size
        let stop := min (start + chunk_size) buffer.length
        let bad := ((buffer.drop start).take (stop - start)).countP
          (fun w => w != ram_pattern)
        let idx := s.chunk_index + 1
        if s.total_chunks ≤ idx then
          { s with errors := s.errors + bad, chunk_index := 0, phase := RamPhase.Write }
        else
          { s with errors := s.errors + bad, chunk_index := idx }
      else s

/-- Embedding of RamTortureTest run_chunk (src/src/stress/torture/tests/
ram.rs, lines 64 to 79): dispatch on the phase. -/
def RamTortureTest.run_chunk (s : RamTortureTest) (available_gb : ℚ) : RamTortureTest :=
  match s.phase with
  | RamPhase.Alloc => s.allocate_buffer available_gb
  | RamPhase.Write => s.write_chunk
  | RamPhase.Verify => s.verify_chunk
  | RamPhase.Done => s

/-- Embedding of RamTortureTest stop (src/src/stress/torture/tests/ram.rs,
lines 208 to 211): request stop and move to Done. -/
def RamTortureTest.stop (s : RamTortureTest) : RamTortureTest :=
  { s with stop_requested := true, phase := RamPhase.Done }

/-- Final per-lane RAM result (src/src/stress/torture/tests/ram.rs, lines
32 to 37). -/
structure RamPartialResult where
  tested_gb : ℚ
  errors : ℕ
  healthy : Bool
  status : Option String
deriving DecidableEq

/-- Embedding of RamTortureTest get_result (src/src/stress/torture/tests/
ram.rs, lines 214 to 231): errors make the lane unhealthy, otherwise a
tested size under 0.1 GB reports Allocation failed, otherwise OK. -/
def RamTortureTest.get_result (s : RamTortureTest) : RamPartialResult :=
  let errors := s.errors
  let hs : Bool × Option String :=
    if 0 < errors then (false, some "errors detected")
    else if s.tested_gb < 1/10 then (false, some "Allocation failed")
    else (true, some "OK")
  { tested_gb := s.tested_gb, errors := errors, healthy := hs.1, status := hs.2 }

/-- Phases of the torture disk lane (src/src/stress/torture/tests/disk.rs,
lines 26 to 31). -/
inductive DiskPhase
  | CreateFile
  | Write
  | Read
  | Done
deriving DecidableEq

/-- State of DiskTortureTest (src/src/stress/torture/tests/disk.rs, lines
11 to 23). The open file handle is abstract. -/
structure DiskTortureTest where
  file : Option Unit
  test_path : String
  chunk_index : ℕ
  total_chunks : ℕ
  errors : ℕ
  bytes_written : ℕ
  bytes_read : ℕ
  io_time_ns : ℕ
  test_size_mb : ℕ
  phase : DiskPhase
  stop_requested : Bool
deriving DecidableEq

/-- Embedding of DiskTortureTest stop (src/src/stress/torture/tests/
disk.rs, lines 252 to 258): request stop, move to Done and remove the
temp file, ignoring a failed removal. The second component is whether the
temp file exists afterwards, which is always false. -/
def DiskTortureTest.stop (s : DiskTortureTest) (_file_on_disk : Bool) :
    DiskTortureTest × Bool :=
  ({ s with stop_requested := true, phase := DiskPhase.Done }, false)

/-- Final per-lane disk result (src/src/stress/torture/tests/disk.rs,
lines 34 to 40). -/
structure DiskPartialResult where
  write_speed_mb_s : ℚ
  read_speed_mb_s : ℚ
  healthy : Bool
  status : Option String
deriving DecidableEq

/-- Embedding of DiskTortureTest get_result (src/src/stress/torture/tests/
disk.rs, lines 261 to 295): speeds are bytes over accumulated I/O time;
a speed under 1 MB per second or any error is unhealthy. -/
def DiskTortureTest.get_result (s : DiskTortureTest) : DiskPartialResult :=
  let io_time_secs : ℚ := (s.io_time_ns : ℚ) / 1000000000
  let write_speed : ℚ :=
    if 0 < io_time_secs then ((s.bytes_written : ℚ) / 1024 / 1024) / io_time_secs else 0
  let read_speed : ℚ :=
    if 0 < io_time_secs then ((s.bytes_read : ℚ) / 1024 / 1024) / io_time_secs else 0
  let errors := s.errors
  let hs : Bool × Option String :=
    if write_speed < 1 then (false, some "Very slow write")
    else if read_speed < 1 then (false, some "Very slow read")
    else if 0 < errors then (false, some "I/O errors")
    else (true, some "OK")
  { write_speed_mb_s := write_speed, read_speed_mb_s := read_speed,
    healthy := hs.1, status := hs.2 }

/-- GPU lane mode (src/src/stress/torture/tests/gpu.rs, lines 24 to 28). -/
inductive GpuMode
  | ThermalOnly
  | Compute
deriving DecidableEq

/-- State of GpuTortureTest (src/src/stress/torture/tests/gpu.rs, lines
11 to 20). -/
structure GpuTortureTest where
  running : Bool
  frame_count : ℕ
  _start_time : ℚ
  _target_duration_secs : ℕ
  _mode : GpuMode
  temp_samples : List ℚ
  max_temp : Option ℚ
  completed : Bool
deriving DecidableEq

/-- Embedding of GpuTortureTest stop (src/src/stress/torture/tests/gpu.rs,
lines 133 to 140): an already completed test returns unchanged, otherwise
the stop flag is cleared and completed is set. -/
def GpuTortureTest.stop (s : GpuTortureTest) : GpuTortureTest :=
  if s.completed then s
  else { s with running := false, completed := true }

/-- Final per-lane GPU result (src/src/stress/torture/tests/gpu.rs, lines
31 to 37). -/
structure GpuPartialResult where
  temp_c : Option ℚ
  _frames_rendered : ℕ
  healthy : Bool
  status : Option String
deriving DecidableEq

/-- Embedding of GpuTortureTest get_result (src/src/stress/torture/tests/
gpu.rs, lines 143 to 165): the reported temperature is the recorded
maximum, falling back to a fresh probe (the argument); over 90 or over
80 is unhealthy, and a missing reading is healthy with status OK (no
temp data). -/
def GpuTortureTest.get_result (s : GpuTortureTest) (fresh : Option ℚ) : GpuPartialResult :=
  let temp_c : Option ℚ :=
    match s.max_temp with
    | some t => some t
    | none => fresh
  let frames_rendered := s.frame_count
  let hs : Bool × Option String :=
    match temp_c with
    | some t =>
        if 90 < t then (false, some "Overheating")
        else if 80 < t then (false, some "Running hot")
        else (true, some "OK")
    | none => (true, some "OK (no temp data)")
  { temp_c := temp_c, _frames_rendered := frames_rendered,
    healthy := hs.1, status := hs.2 }

/-
  Torture orchestrator (src/src/stress/torture/mod.rs).
-/

/-- UI language (src/src/lang.rs, lines 4 to 7). -/
inductive Language
  | Vietnamese
  | English
deriving DecidableEq

/-- Embedding of TortureConfig (src/src/stress/torture/mod.rs, lines 20
to 24): the configured duration in seconds, an unused verbose flag and
the language. These are all of its fields. -/
structure TortureConfig where
  duration_secs : ℕ
  _verbose : Bool
  language : Language
deriving DecidableEq

/-- Embedding of TortureResult (src/src/stress/torture/mod.rs, lines 26
to 33). -/
structure TortureResult where
  _duration_actual_secs : ℕ
  _cpu_result : Option CpuPartialResult
  _ram_result : Option RamPartialResult
  _disk_result : Option DiskPartialResult
  _gpu_result : Option GpuPartialResult
  _survived : Bool
deriving DecidableEq

/-- The result returned when the user declines the confirmation prompt
(src/src/stress/torture/mod.rs, lines 65 to 72): no lane results and
survived false, produced before any lane test object is created. -/
def cancelled_torture_result : TortureResult :=
  { _duration_actual_secs := 0, _cpu_result := none, _ram_result := none,
    _disk_result := none, _gpu_result := none, _survived := false }

/-- The TortureResult assembled at the end of run_torture_test_internal
(src/src/stress/torture/mod.rs, lines 181 to 188) from the actual
duration and the four collected lane results: every lane result is
wrapped in Some and the survived field is the literal true. -/
def run_torture_test_internal_result (actual_duration : ℕ)
    (cpu : CpuPartialResult) (ram : RamPartialResult)
    (disk : DiskPartialResult) (gpu : GpuPartialResult) : TortureResult :=
  { _duration_actual_secs := actual_duration,
    _cpu_result := some cpu, _ram_result := some ram,
    _disk_result := some disk, _gpu_result := some gpu,
    _survived := true }

/-- The overall verdict printed by print_torture_summary (src/src/stress/
torture/mod.rs, line 254): the conjunction of the four lane healthy
flags. -/
def print_summary_all_healthy (cpu : CpuPartialResult) (ram : RamPartialResult)
    (disk : DiskPartialResult) (gpu : GpuPartialResult) : Bool :=
  cpu.healthy && ram.healthy && disk.healthy && gpu.healthy

/-- Whitespace test used by the trim of the confirmation input; the input
line of interest is ASCII, so the usual ASCII whitespace characters are
covered. -/
def is_space (c : Char) : Bool :=
  c == ' ' || c == '\t' || c == '\n' || c == '\r'

/-- Lowercasing of one character of the confirmation input (ASCII range,
which covers the recognized answers n and no). -/
def ascii_to_lower (c : Char) : Char :=
  if 'A' ≤ c ∧ c ≤ 'Z' then Char.ofNat (c.toNat + 32) else c

/-- Trim of the confirmation input: leading and trailing whitespace
removed. -/
def trim_chars (l : List Char) : List Char :=
  ((l.dropWhile is_space).reverse.dropWhile is_space).reverse

/-- Embedding of the confirmation step of run_torture_test (src/src/
stress/torture/mod.rs, lines 56 to 86). The read line is an argument,
as its list of characters; it is trimmed and lowercased, and exactly the
answers n and no cancel the run before any lane test is created.
Otherwise the internal run proceeds; its result (which depends on the
machine) is an argument. The first component records whether the
internal run (and hence any workload unit) was started. The config is
received as in the source; no field of it is consulted by this step. -/
def run_torture_test (_config : TortureConfig) (input : List Char)
    (internal : TortureResult) : Bool × TortureResult :=
  let inp := (trim_chars input).map ascii_to_lower
  if inp = "n".data ∨ inp = "no".data then (false, cancelled_torture_result)
  else (true, internal)

/-- Exit of the main torture loop (src/src/stress/torture/mod.rs, lines
109 to 153) as a function of the trace of cycle durations: the condition
elapsed less than duration is tested at the top of each iteration, and a
cycle adds its duration to the elapsed clock. Returns the elapsed time at
exit, or none when the trace is exhausted before the loop exits. -/
def torture_loop_exit (duration : ℚ) : List ℚ → ℚ → Option ℚ
  | [], t => if duration ≤ t then some t else none
  | c :: cs, t => if duration ≤ t then some t else torture_loop_exit duration cs (t + c)

/-- A CPU lane state at collection time: workers joined, no overheat data
(the fresh probes are passed to get_result separately). -/
def c1_cpu_state : CpuTortureTest :=
  { running := false, operations := 123456, thread_handles := [],
    _start_time := 0, _target_duration_secs := 60, _cpu_cores := 8,
    completed := true }

/-- A RAM lane state at collection time whose verify passes found exactly
one mismatched word: errors is 1 while 2 GB were allocated and tested. -/
def c1_ram_state : RamTortureTest :=
  { buffer := none, chunk_index := 0, total_chunks := 0, errors := 1,
    _start_time := 0, tested_gb := 2, phase := RamPhase.Done,
    stop_requested := true }

/-- A disk lane state at collection time: 10 MB written and read back in
one second of accumulated I/O time and no I/O error. -/
def c1_disk_state : DiskTortureTest :=
  { file := none, test_path := "pchecker_torture_disk.tmp",
    chunk_index := 0, total_chunks := 10, errors := 0,
    bytes_written := 10485760, bytes_read := 10485760,
    io_time_ns := 1000000000, test_size_mb := 10,
    phase := DiskPhase.Done, stop_requested := true }

/-- A GPU lane state at collection time with no temperature sample
recorded. -/
def c1_gpu_state : GpuTortureTest :=
  { running := false, frame_count := 1000, _start_time := 0,
    _target_duration_secs := 60, _mode := GpuMode.ThermalOnly,
    temp_samples := [], max_temp := none, completed := true }

/-- A collected GPU lane state (stopped, thermal mode) with a given
recorded maximum temperature, used to evaluate get_result. -/
def gpu_lane_collected (mt : Option ℚ) : GpuTortureTest :=
  { running := false, frame_count := 500, _start_time := 0,
    _target_duration_secs := 60, _mode := GpuMode.ThermalOnly,
    temp_samples := [], max_temp := mt, completed := true }

/-- Maximum of two optional readings, missing readings being neutral;
helper for relating the GPU maximum fold to the specification maximum. -/
def omax (a b : Option ℚ) : Option ℚ :=
  match a, b with
  | none, b => b
  | some x, none => some x
  | some x, some y => some (max x y)

/-
  Theorems.
-/

/-- Invariant of the torture loop clock: starting below duration plus the
cycle bound and adding cycles below the bound, an exit lands in the
half-open window from duration to duration plus the bound. -/
theorem torture_loop_exit_invariant (duration bound : ℚ) :
    ∀ (cycles : List ℚ) (t e : ℚ), (∀ c ∈ cycles, c ≤ bound) →
      t < duration + bound → torture_loop_exit duration cycles t = some e →
      duration ≤ e ∧ e < duration + bound := by
  intro cycles
  induction cycles with
  | nil =>
      intro t e _ ht hx
      unfold torture_loop_exit at hx
      by_cases h : duration ≤ t
      · rw [if_pos h] at hx
        cases hx
        exact ⟨h, ht⟩
      · rw [if_neg h] at hx
        cases hx
  | cons c cs ih =>
      intro t e hc ht hx
      unfold torture_loop_exit at hx
      by_cases h : duration ≤ t
      · rw [if_pos h] at hx
        cases hx
        exact ⟨h, ht⟩
      · rw [if_neg h] at hx
        have hcb : c ≤ bound := hc c (List.mem_cons_self c cs)
        have ht2 : t + c < duration + bound := by
          have := not_le.mp h
          linarith
        exact ih (t + c) e (fun x hm => hc x (List.mem_cons_of_mem c hm)) ht2 hx

/-- Claim C6: for a configured duration D, the main torture loop exits
with elapsed wall-clock time (the sum of completed cycle durations,
checked at the top of each iteration) in the window from D inclusive to
D plus one cycle exclusive: with every cycle within the nominal 100 ms
cadence the exit time is in the window from D to D plus 100 ms, and in
general a slow cycle extends the run by less than that one cycle, since
the window is bounded by any common bound on the cycle durations. -/
theorem torture_loop_exit_bounds (duration bound e : ℚ) (cycles : List ℚ)
    (hdur : 0 ≤ duration) (hbound : 0 < bound)
    (hcyc : ∀ c ∈ cycles, c ≤ bound)
    (hexit : torture_loop_exit duration cycles 0 = some e) :
    duration ≤ e ∧ e < duration + bound :=
  torture_loop_exit_invariant duration bound cycles 0 e hcyc (by linarith) hexit

/-- Witness for claim C6: a 200 ms duration with three 100 ms cycles
exits at exactly 200 ms, inside the stated window. -/
theorem torture_loop_exit_bounds_witness :
    torture_loop_exit 200 [100, 100, 100] 0 = some 200
  ∧ ((200 : ℚ) ≤ 200 ∧ (200 : ℚ) < 200 + 100) := by
  have hexit : torture_loop_exit 200 [100, 100, 100] 0 = some 200 := by
    norm_num [torture_loop_exit]
  refine ⟨hexit, torture_loop_exit_bounds 200 100 200 [100, 100, 100]
    (by norm_num) (by norm_num) ?_ hexit⟩
  intro c hc
  fin_cases hc <;> norm_num

/-- The predicate counting a constant list: every element matches or none
does. -/
theorem countP_replicate_eq (p : ℕ → Bool) (a : ℕ) (h : p a = true) :
    ∀ n : ℕ, (List.replicate n a).countP p = n := by
  intro n
  induction n with
  | zero => simp
  | succ k ih => simp [List.replicate_succ, List.countP_cons, h, ih]

/-- A member that matches the predicate makes the count positive. -/
theorem countP_pos_of_mem (p : ℕ → Bool) (l : List ℕ) (w : ℕ)
    (hw : w ∈ l) (hp : p w = true) : 0 < l.countP p := by
  induction l with
  | nil => cases hw
  | cons a rest ih =>
      rcases List.mem_cons.mp hw with h | h
      · subst h
        simp [List.countP_cons, hp]
      · rw [List.countP_cons]
        exact lt_of_lt_of_le (ih h) (Nat.le_add_right _ _)

/-- Claim C2 counterexample: a disk verification run in which exactly one
byte of the read-back differs from the written pattern (here the first
byte of a chunk reads 0 instead of 0xA5) reports a sector error count of
0, because read_test divides the mismatched byte count by 4096, and with
good speeds the lane verdict is Healthy - not an error count of at least
1 with verdict Failed as the claim states. -/
theorem disk_single_corrupted_byte_healthy :
    disk_byte_mismatches [0 :: List.replicate 10 disk_pattern] = 1
  ∧ read_test_sector_errors [0 :: List.replicate 10 disk_pattern] = 0
  ∧ evaluate_disk_health 500 2000 (1/2)
      (read_test_sector_errors [0 :: List.replicate 10 disk_pattern]) true =
      HealthStatus.Healthy := by
  have h : read_test_sector_errors [0 :: List.replicate 10 disk_pattern] = 0 := by decide
  refine ⟨by decide, h, ?_⟩
  rw [h]
  norm_num [evaluate_disk_health]

/-- Claim C2 as amended: a RAM verification run with at least one
corrupted word reports at least one error and the verdict Failed
regardless of the measured speeds; a disk verification run reports at
least one bad sector and the verdict Failed regardless of speeds when at
least 4096 read-back bytes mismatch (the byte mismatch count is integer
divided by 4096, so fewer corrupted bytes are reported as zero). -/
theorem integrity_violation_forces_failed (buffer : List ℕ) (w : ℕ)
    (gb ws rs : ℚ) (chunks : List (List ℕ)) (dw dr dk : ℚ) (ssd : Bool)
    (hw : w ∈ buffer) (hwp : w ≠ ram_pattern)
    (hd : 4096 ≤ disk_byte_mismatches chunks) :
    (1 ≤ ram_verify_errors buffer
      ∧ (evaluate_ram_health gb ws rs (ram_verify_errors buffer)).tag = HealthTag.failed)
  ∧ (1 ≤ read_test_sector_errors chunks
      ∧ (evaluate_disk_health dw dr dk (read_test_sector_errors chunks) ssd).tag =
          HealthTag.failed) := by
  have hr : 0 < ram_verify_errors buffer :=
    countP_pos_of_mem _ buffer w hw (by simp [hwp])
  have hs : 0 < read_test_sector_errors chunks := by
    have := (Nat.one_le_div_iff (by norm_num : 0 < 4096)).mpr hd
    simpa [read_test_sector_errors] using this
  refine ⟨⟨hr, ?_⟩, hs, ?_⟩
  · simp only [evaluate_ram_health]
    rw [if_pos hr]
    rfl
  · simp only [evaluate_disk_health]
    rw [if_pos hs]
    rfl

/-- Witness for claim C2 as amended: a one-word buffer reading 0 and a
chunk of 4096 bytes reading 0. -/
theorem integrity_violation_forces_failed_witness :
    (1 ≤ ram_verify_errors [0]
      ∧ (evaluate_ram_health 8 15 20 (ram_verify_errors [0])).tag = HealthTag.failed)
  ∧ (1 ≤ read_test_sector_errors [List.replicate 4096 0]
      ∧ (evaluate_disk_health 500 2000 (1/2)
          (read_test_sector_errors [List.replicate 4096 0]) true).tag =
          HealthTag.failed) :=
  integrity_violation_forces_failed [0] 0 8 15 20 [List.replicate 4096 0]
    500 2000 (1/2) true (by decide) (by decide)
    (by
      have hval : disk_byte_mismatches [List.replicate 4096 0] = 4096 := by
        unfold disk_byte_mismatches
        rw [List.map_cons, List.map_nil, List.sum_cons, List.sum_nil]
        unfold disk_chunk_mismatches
        rw [countP_replicate_eq (fun b => b != disk_pattern) 0 (by decide) 4096]
        omega
      rw [hval])

/-- Claim C3 counterexample: a completed run with temperature 90 (inside
the band from 85 exclusive to 95 inclusive) but timing variance 250 is
judged Failed, not IssuesDetected as the claim states for that band: the
variance check returns before the collected issues are reported. -/
theorem cpu_hot_band_extreme_variance_fails :
    evaluate_cpu_health true 250 (some 90) 0 =
      HealthStatus.Failed "Extreme instability detected - possible CPU fault"
  ∧ (evaluate_cpu_health true 250 (some 90) 0).tag = HealthTag.failed := by decide

/-- Claim C3 as amended: for a completed run, variance in the interval
from 0 to 200, temperature at most 85 (or absent) and frequency drop at
most 10 percent give Healthy; temperature in the band from 85 exclusive
to 95 inclusive gives IssuesDetected provided the variance is at most
200 (a variance above 200 forces Failed even inside the band); and
temperature above 95 gives Failed regardless of variance and drop. -/
theorem evaluate_cpu_health_thresholds :
    (∀ (v d : ℚ) (t : Option ℚ), 0 ≤ v → v ≤ 200 → (∀ x ∈ t, x ≤ 85) → d ≤ 10 →
        evaluate_cpu_health true v t d = HealthStatus.Healthy)
  ∧ (∀ (v d x : ℚ), 85 < x → x ≤ 95 → v ≤ 200 →
        (evaluate_cpu_health true v (some x) d).tag = HealthTag.issues)
  ∧ (∀ (v d x : ℚ), 95 < x →
        (evaluate_cpu_health true v (some x) d).tag = HealthTag.failed) := by
  refine ⟨?_, ?_, ?_⟩
  · intro v d t _ hv ht hd
    cases t with
    | none =>
        simp [evaluate_cpu_health, tempOver, not_lt.mpr hv, not_lt.mpr hd]
    | some x =>
        have hx : x ≤ 85 := ht x rfl
        have h95 : ¬ (95:ℚ) < x := not_lt.mpr (hx.trans (by norm_num))
        have h85 : ¬ (85:ℚ) < x := not_lt.mpr hx
        simp [evaluate_cpu_health, tempOver, h95, h85, not_lt.mpr hv, not_lt.mpr hd]
  · intro v d x h85 h95 hv
    have h95n : ¬ (95:ℚ) < x := not_lt.mpr h95
    simp [evaluate_cpu_health, tempOver, h95n, h85, not_lt.mpr hv, HealthStatus.tag]
  · intro v d x h95
    simp [evaluate_cpu_health, tempOver, h95, HealthStatus.tag]

/-- Witness for claim C3 as amended, at temperatures 70, 90 and 100 with
variance 10 and drop 0. -/
theorem evaluate_cpu_health_thresholds_witness :
    evaluate_cpu_health true 10 (some 70) 0 = HealthStatus.Healthy
  ∧ (evaluate_cpu_health true 10 (some 90) 0).tag = HealthTag.issues
  ∧ (evaluate_cpu_health true 10 (some 100) 0).tag = HealthTag.failed :=
  ⟨evaluate_cpu_health_thresholds.1 10 0 (some 70) (by norm_num) (by norm_num)
      (by intro x hx; cases hx; norm_num) (by norm_num),
   evaluate_cpu_health_thresholds.2.1 10 0 90 (by norm_num) (by norm_num) (by norm_num),
   evaluate_cpu_health_thresholds.2.2 10 0 100 (by norm_num)⟩

/-- Claim C1: the claim states that the survived field of the
TortureResult returned by run_torture_test always equals the AND of the
four lane healthy flags, and that a RAM lane with one error and three
healthy lanes forces survived false. The code violates this: at the run
shown here the RAM lane reports one error and is unhealthy, the CPU,
disk and GPU lanes are healthy, the printed summary verdict (the AND of
the four healthy flags) is false, yet the returned result carries
survived true, because run_torture_test_internal stores the literal true
(src/src/stress/torture/mod.rs, line 187). -/
theorem torture_survived_not_and_of_healthy :
    (c1_ram_state.get_result).errors = 1
  ∧ (c1_ram_state.get_result).healthy = false
  ∧ (c1_cpu_state.get_result none 3).healthy = true
  ∧ (c1_disk_state.get_result).healthy = true
  ∧ (c1_gpu_state.get_result none).healthy = true
  ∧ print_summary_all_healthy (c1_cpu_state.get_result none 3)
      c1_ram_state.get_result c1_disk_state.get_result
      (c1_gpu_state.get_result none) = false
  ∧ (run_torture_test_internal_result 60 (c1_cpu_state.get_result none 3)
      c1_ram_state.get_result c1_disk_state.get_result
      (c1_gpu_state.get_result none))._survived = true := by
  refine ⟨rfl, rfl, rfl, ?_, rfl, ?_, rfl⟩
  · norm_num [DiskTortureTest.get_result, c1_disk_state]
  · norm_num [print_summary_all_healthy, DiskTortureTest.get_result,
      c1_disk_state, c1_ram_state, RamTortureTest.get_result]

/-- Claim C8: for every lane state (hence for every reachable one),
calling stop a second time leaves the state exactly as after the first
call and performs no work: the CPU lane joins no thread handle the second
time (the pair records the new state and the handles drained and joined
by the call), the RAM and GPU lanes return the identical state, and the
disk lane returns the identical state with the temp file still absent.
No lane panics, double-frees or double-joins on the second call. -/
theorem torture_stop_idempotent (c : CpuTortureTest) (r : RamTortureTest)
    (d : DiskTortureTest) (g : GpuTortureTest) (file_on_disk : Bool) :
    CpuTortureTest.stop (CpuTortureTest.stop c).1 = ((CpuTortureTest.stop c).1, [])
  ∧ RamTortureTest.stop (RamTortureTest.stop r) = RamTortureTest.stop r
  ∧ DiskTortureTest.stop (DiskTortureTest.stop d file_on_disk).1
      (DiskTortureTest.stop d file_on_disk).2 = DiskTortureTest.stop d file_on_disk
  ∧ GpuTortureTest.stop (GpuTortureTest.stop g) = GpuTortureTest.stop g := by
  refine ⟨?_, rfl, rfl, ?_⟩
  · by_cases h : c.completed <;> simp [CpuTortureTest.stop, h]
  · by_cases h : g.completed <;> simp [GpuTortureTest.stop, h]

/-- Claim C10: a RAM torture lane that never successfully allocated its
buffer (tested_gb below 0.1) and whose error counter is zero reports an
unhealthy lane with status Allocation failed; in particular the lane
stopped straight after creation, before any run_chunk call, reports
exactly that result despite zero memory errors. -/
theorem ram_get_result_allocation_failed (s : RamTortureTest)
    (he : s.errors = 0) (hg : s.tested_gb < 1/10) :
    ((RamTortureTest.get_result s).healthy = false
      ∧ (RamTortureTest.get_result s).status = some "Allocation failed")
  ∧ RamTortureTest.get_result (RamTortureTest.stop RamTortureTest.new) =
      { tested_gb := 0, errors := 0, healthy := false,
        status := some "Allocation failed" } := by
  constructor
  · simp only [RamTortureTest.get_result, he]
    rw [if_neg (lt_irrefl 0), if_pos hg]
    exact ⟨rfl, rfl⟩
  · norm_num [RamTortureTest.get_result, RamTortureTest.stop, RamTortureTest.new]

/-- Claim C4 counterexample: the torture GPU lane is a GPU health
evaluation the program performs, and with no temperature sample available
(no recorded maximum and no fresh reading) its get_result reports a
healthy lane with status OK (no temp data) - it does not consult whether
the GPU is Apple silicon at all - while the claim requires
IssuesDetected for a non-Apple GPU in every evaluation. The standalone
evaluator is shown alongside for the contrast. -/
theorem gpu_torture_lane_no_temp_healthy :
    (GpuTortureTest.get_result (gpu_lane_collected none) none).healthy = true
  ∧ (GpuTortureTest.get_result (gpu_lane_collected none) none).status =
      some "OK (no temp data)"
  ∧ (evaluate_gpu_health none false).tag = HealthTag.issues := by decide

/-- Claim C4 as amended: in the standalone evaluator a missing
temperature yields Healthy for Apple silicon and IssuesDetected
otherwise; the torture GPU lane, which has no notion of Apple silicon,
reports healthy with status OK (no temp data) whenever neither a
recorded maximum nor a fresh reading is available. -/
theorem gpu_no_temperature_verdicts :
    evaluate_gpu_health none true = HealthStatus.Healthy
  ∧ evaluate_gpu_health none false = HealthStatus.IssuesDetected
      ["GPU temperature sensor not available - unable to verify thermal status"]
  ∧ (∀ (s : GpuTortureTest) (fresh : Option ℚ), s.max_temp = none → fresh = none →
      (GpuTortureTest.get_result s fresh).healthy = true
      ∧ (GpuTortureTest.get_result s fresh).status = some "OK (no temp data)") := by
  refine ⟨rfl, rfl, ?_⟩
  intro s fresh hm hf
  simp [GpuTortureTest.get_result, hm, hf]

/-- Witness for claim C4 as amended, at the collected lane with no
recorded maximum and no fresh reading. -/
theorem gpu_no_temperature_verdicts_witness :
    (GpuTortureTest.get_result (gpu_lane_collected none) none).healthy = true
  ∧ (GpuTortureTest.get_result (gpu_lane_collected none) none).status =
      some "OK (no temp data)" :=
  gpu_no_temperature_verdicts.2.2 (gpu_lane_collected none) none rfl rfl

/-- Claim C5 counterexample: at temperature 84 the torture GPU lane
reports an unhealthy lane (its thresholds are over 90 for overheating
and over 80 for running hot), while under the CPU thresholds the claim
asserts for every mode - over 95 Failed and the band from 85 exclusive
to 95 inclusive IssuesDetected - a reading of 84 is perfectly healthy,
as both the standalone GPU evaluator and the CPU evaluator confirm. -/
theorem gpu_torture_lane_thresholds_differ :
    (GpuTortureTest.get_result (gpu_lane_collected (some 84)) none).healthy = false
  ∧ (GpuTortureTest.get_result (gpu_lane_collected (some 84)) none).status =
      some "Running hot"
  ∧ evaluate_gpu_health (some 84) false = HealthStatus.Healthy
  ∧ evaluate_cpu_health true 0 (some 84) 0 = HealthStatus.Healthy := by decide

/-- Claim C5 as amended: the standalone GPU evaluator mirrors the CPU
temperature thresholds exactly - for every reading the two produce the
same verdict class - while the torture GPU lane uses stricter
thresholds: it is healthy exactly when the reported temperature is at
most 80, and unhealthy above (over 90 reported as Overheating, over 80
as Running hot). -/
theorem gpu_thresholds_standalone_vs_lane :
    (∀ (t : ℚ) (apple : Bool),
        (evaluate_gpu_health (some t) apple).tag =
          (evaluate_cpu_health true 0 (some t) 0).tag)
  ∧ (∀ (s : GpuTortureTest) (fresh : Option ℚ) (t : ℚ), s.max_temp = some t →
        ((GpuTortureTest.get_result s fresh).healthy = true ↔ t ≤ 80)) := by
  constructor
  · intro t apple
    by_cases h95 : (95:ℚ) < t
    · norm_num [evaluate_gpu_health, evaluate_cpu_health, tempOver, h95,
        HealthStatus.tag]
    · by_cases h85 : (85:ℚ) < t
      · norm_num [evaluate_gpu_health, evaluate_cpu_health, tempOver, h95, h85,
          HealthStatus.tag]
      · norm_num [evaluate_gpu_health, evaluate_cpu_health, tempOver, h95, h85,
          HealthStatus.tag]
  · intro s fresh t hm
    rcases lt_or_le 80 t with h80 | h80
    · have hn : ¬ t ≤ 80 := not_le.mpr h80
      by_cases h90 : (90:ℚ) < t <;>
        simp [GpuTortureTest.get_result, hm, h90, h80, hn]
    · have h90 : ¬ (90:ℚ) < t := not_lt.mpr (h80.trans (by norm_num))
      have h80n : ¬ (80:ℚ) < t := not_lt.mpr h80
      simp [GpuTortureTest.get_result, hm, h90, h80n, h80]

/-- Witness for claim C5 as amended, at readings 90 (standalone
comparison) and 84 (torture lane). -/
theorem gpu_thresholds_standalone_vs_lane_witness :
    ((evaluate_gpu_health (some 90) false).tag =
        (evaluate_cpu_health true 0 (some 90) 0).tag)
  ∧ ((GpuTortureTest.get_result (gpu_lane_collected (some 84)) none).healthy = true
      ↔ (84:ℚ) ≤ 80) :=
  ⟨gpu_thresholds_standalone_vs_lane.1 90 false,
   gpu_thresholds_standalone_vs_lane.2 (gpu_lane_collected (some 84)) none 84 rfl⟩

/-- Claim C7 counterexample: TortureConfig has no confirmation-skip
flag - its fields are the duration, the unused verbose flag and the
language - and the prompt is never skipped. Reading the one boolean
field of the config as the claimed skip flag and setting it, a declining
answer n still produces the cancelled result without creating any
workload unit (the first component false records that the internal run
never started), where the claim requires the run to enter Running. -/
theorem torture_skip_flag_refuted :
    run_torture_test
      { duration_secs := 60, _verbose := true, language := Language.English }
      "n".data
      { _duration_actual_secs := 60, _cpu_result := none, _ram_result := none,
        _disk_result := none, _gpu_result := none, _survived := true } =
      (false, cancelled_torture_result) := by decide

/-- Claim C7 as amended: run_torture_test always prompts (no config
field can skip the confirmation); it cancels exactly when the trimmed,
lowercased answer is n or no, in which case it returns the cancelled
result - no lane results, survived false - without creating or running
any workload unit, and for any other answer it proceeds to the internal
run. -/
theorem torture_confirmation_decides (cfg : TortureConfig) (input : List Char)
    (internal : TortureResult) :
    (((run_torture_test cfg input internal).1 = false) ↔
        ((trim_chars input).map ascii_to_lower = "n".data
          ∨ (trim_chars input).map ascii_to_lower = "no".data))
  ∧ (((trim_chars input).map ascii_to_lower = "n".data
        ∨ (trim_chars input).map ascii_to_lower = "no".data) →
        run_torture_test cfg input internal = (false, cancelled_torture_result))
  ∧ (¬((trim_chars input).map ascii_to_lower = "n".data
        ∨ (trim_chars input).map ascii_to_lower = "no".data) →
        run_torture_test cfg input internal = (true, internal))
  ∧ cancelled_torture_result._cpu_result = none
  ∧ cancelled_torture_result._ram_result = none
  ∧ cancelled_torture_result._disk_result = none
  ∧ cancelled_torture_result._gpu_result = none
  ∧ cancelled_torture_result._survived = false := by
  by_cases h : ((trim_chars input).map ascii_to_lower = "n".data
    ∨ (trim_chars input).map ascii_to_lower = "no".data) <;>
    simp [run_torture_test, cancelled_torture_result, h]

/-- Witness for claim C7 as amended: the answer No with surrounding
whitespace cancels the run. -/
theorem torture_confirmation_decides_witness :
    run_torture_test
      { duration_secs := 5, _verbose := false, language := Language.Vietnamese }
      " No ".data
      { _duration_actual_secs := 5, _cpu_result := none, _ram_result := none,
        _disk_result := none, _gpu_result := none, _survived := true } =
      (false, cancelled_torture_result) :=
  (torture_confirmation_decides _ _ _).2.1 (by decide)

/-- Claim C9 counterexample: the standalone CPU run evaluates health at
the single temperature reading taken after the stress loop, not at the
worst sample of the run: with the trace 100 then 70 and a one second
run, the reading consumed during the run is the spike 100, but the
health evaluation sees only the final 70 and reports Healthy, while an
evaluation at the worst observed sample would report Failed. -/
theorem cpu_health_ignores_spike :
    cpu_post_test_temp 1 [some 100, some 70] = some 70
  ∧ evaluate_cpu_health true 0 (cpu_post_test_temp 1 [some 100, some 70]) 0 =
      HealthStatus.Healthy
  ∧ (evaluate_cpu_health true 0 (spec_worst_sample [some 100, some 70]) 0).tag =
      HealthTag.failed := by decide

/-- One step of the GPU maximum update is the optional maximum with the
new reading. -/
theorem gpu_update_max_eq_omax (m : Option ℚ) (t : ℚ) :
    gpu_update_max m t = omax m (some t) := by
  cases m with
  | none => rfl
  | some x =>
      by_cases h : x < t
      · simp [gpu_update_max, omax, h, max_eq_right h.le]
      · simp [gpu_update_max, omax, h, max_eq_left (not_lt.mp h)]

/-- The optional maximum is associative. -/
theorem omax_assoc (a b c : Option ℚ) :
    omax (omax a b) c = omax a (omax b c) := by
  cases a <;> cases b <;> cases c <;> simp [omax, max_assoc]

/-- The specification maximum of a trace headed by a present reading. -/
theorem spec_worst_sample_cons_some (t : ℚ) (rest : List (Option ℚ)) :
    spec_worst_sample (some t :: rest) = omax (some t) (spec_worst_sample rest) := by
  rcases h : spec_worst_sample rest with _ | m <;>
    simp [spec_worst_sample, h, omax]

/-- The GPU maximum fold computes the optional maximum of the accumulator
and the specification maximum of the remaining trace. -/
theorem gpu_fold_eq_omax (l : List (Option ℚ)) :
    ∀ acc : Option ℚ,
      l.foldl (fun acc s => match s with | none => acc | some t => gpu_update_max acc t) acc =
        omax acc (spec_worst_sample l) := by
  induction l with
  | nil => intro acc; cases acc <;> rfl
  | cons s rest ih =>
      intro acc
      cases s with
      | none => simpa [spec_worst_sample] using ih acc
      | some t =>
          rw [List.foldl_cons]
          show List.foldl _ (gpu_update_max acc t) rest = _
          rw [ih (gpu_update_max acc t), gpu_update_max_eq_omax,
            spec_worst_sample_cons_some, omax_assoc]

/-- The display loop of the CPU run consumes exactly a prefix of the
trace. -/
theorem cpu_display_phase_eq_drop (n : ℕ) :
    ∀ l : List (Option ℚ), cpu_display_phase n l = l.drop n := by
  induction n with
  | zero => intro l; rfl
  | succ k ih =>
      intro l
      cases l with
      | nil => simp [cpu_display_phase]
      | cons a rest => simp [cpu_display_phase, ih rest]

/-- Claim C9 as amended: all temperature and variance threshold
comparisons in health evaluation are strict; the standalone GPU run
evaluates the worst single (maximum) observed sample - the code fold
equals the specification maximum on every trace - while the standalone
CPU run evaluates the single post-loop reading (the one at index
duration_secs of the trace), not the maximum; at the exact threshold
values 85, 95, 200 and 10 nothing triggers, confirming strictness. -/
theorem health_sample_sources :
    (∀ samples : List (Option ℚ),
        gpu_temperature_max samples = spec_worst_sample samples)
  ∧ (∀ (d : ℕ) (sensor : List (Option ℚ)),
        cpu_post_test_temp d sensor = (sensor.drop d).headD none)
  ∧ evaluate_cpu_health true 200 (some 85) 10 = HealthStatus.Healthy
  ∧ evaluate_gpu_health (some 85) false = HealthStatus.Healthy
  ∧ (evaluate_gpu_health (some 95) false).tag = HealthTag.issues
  ∧ (evaluate_cpu_health true 0 (some 95) 0).tag = HealthTag.issues := by
  refine ⟨?_, ?_, by decide, by decide, by decide, by decide⟩
  · intro samples
    have h := gpu_fold_eq_omax samples none
    unfold gpu_temperature_max
    rw [h]
    cases spec_worst_sample samples <;> rfl
  · intro d sensor
    unfold cpu_post_test_temp
    rw [cpu_display_phase_eq_drop]
    cases sensor.drop d <;> rfl

/-- Witness for claim C10 at the concrete lane stopped before any
run_chunk call. -/
theorem ram_get_result_allocation_failed_witness :
    ((RamTortureTest.get_result (RamTortureTest.stop RamTortureTest.new)).healthy = false
      ∧ (RamTortureTest.get_result (RamTortureTest.stop RamTortureTest.new)).status =
          some "Allocation failed")
  ∧ RamTortureTest.get_result (RamTortureTest.stop RamTortureTest.new) =
      { tested_gb := 0, errors := 0, healthy := false,
        status := some "Allocation failed" } :=
  ram_get_result_allocation_failed (RamTortureTest.stop RamTortureTest.new)
    rfl (by norm_num [RamTortureTest.stop, RamTortureTest.new])

end Pcheck
